import Mathlib

/-!
Verification of the document intake and combined-PDF generation pipeline of the
ss54-praiagrande repository.

The Lean definitions below are a shallow embedding of the Python source:

* app/utils/file_sanitization.py  (sanitize_filename, sanitize_pdf)
* app/services/file_service.py    (_validate_file_content, save_file)
* app/services/storage_service.py (retry_file_operation)
* app/services/pdf_generation_service.py
  (DOCUMENT_TYPE_ORDER, PDFValidator, PDFMerger, generate_combined_pdf,
   ensure_combined_pdf, ensure_combined_pdfs_batch)
* app/repositories/document_repository.py (combined-PDF queries)

External libraries (pikepdf, Pillow, the filetype sniffer) and the filesystem
are modelled as explicit environment parameters: a PDF document is an abstract
record of exactly the flags the sanitizer inspects, the filesystem is an
association list from paths to file contents, and library calls that can fail
are functions into explicit outcome types.
-/

namespace PraiaGrande

/-! ## Part 1: filename sanitization (app/utils/file_sanitization.py, sanitize_filename)

The Python function works on Unicode strings; we model each processing step on
the underlying character list.
-/

/-- Characters stripped by the final strip call of sanitize_filename. -/
def isStripChar (c : Char) : Bool := c = '_' || c = '.' || c = ' '

/-- Python regex whitespace class for ASCII input: space, tab, LF, CR, VT, FF.
(Python also matches some non-ASCII Unicode spaces; those are likewise kept
or collapsed, which does not affect the properties proved below.) -/
def pyWhitespace (c : Char) : Bool :=
  c = ' ' || c = '\t' || c = '\n' || c = '\r' || c = '\x0b' || c = '\x0c'

/-- Python regex word class: alphanumerics and underscore. (Python additionally
matches non-ASCII letters and digits; any character judged differently is
merely replaced by an underscore, which does not affect the properties
proved below.) -/
def pyWordChar (c : Char) : Bool := c.isAlphanum || c = '_'

/-- The character class kept by re.sub of the pattern excluding word chars,
whitespace, dash and dot. -/
def keepChar (c : Char) : Bool := pyWordChar c || pyWhitespace c || c = '-' || c = '.'

/-- The Windows-dangerous characters replaced by underscore. -/
def windowsDangerous : List Char := ['<', '>', ':', '"', '|', '?', '*']

/-- os.path.basename on POSIX: everything after the last slash. -/
def basenameChars (l : List Char) : List Char :=
  ((l.reverse.takeWhile (fun c => c ≠ '/')).reverse)

/-- Python str.replace of two consecutive dots by the empty string:
left-to-right, non-overlapping, no rescan of the replacement site. -/
def removeDotDot : List Char → List Char
  | [] => []
  | '.' :: '.' :: rest => removeDotDot rest
  | c :: rest => c :: removeDotDot rest

/-- Auxiliary for collapsing maximal runs of underscore-or-whitespace into a
single underscore (re.sub of one-or-more of that class by underscore).
The flag records whether we are inside such a run. -/
def collapseAux : Bool → List Char → List Char
  | _, [] => []
  | true, c :: rest =>
    if (c = '_' || pyWhitespace c) = true then collapseAux true rest
    else c :: collapseAux false rest
  | false, c :: rest =>
    if (c = '_' || pyWhitespace c) = true then '_' :: collapseAux true rest
    else c :: collapseAux false rest

/-- Collapse runs of underscores and whitespace into a single underscore. -/
def collapseRuns (l : List Char) : List Char := collapseAux false l

/-- Python str.strip of the three characters underscore, dot and space:
remove them from both ends. -/
def stripChars (l : List Char) : List Char :=
  ((l.dropWhile isStripChar).reverse.dropWhile isStripChar).reverse

/-- Python slice s take k with a possibly negative bound, as in name slicing:
a negative bound counts from the end and clamps at zero. -/
def pySliceTo (l : List Char) (k : Int) : List Char :=
  if k < 0 then l.take (l.length - k.natAbs) else l.take k.toNat

/-- os.path.splitext restricted to inputs without a path separator (the call
site applies it after basename and character cleaning, so no slash remains):
split at the last dot, unless every character before that dot is itself a dot
(a leading-dots name has no extension). -/
def splitext (l : List Char) : List Char × List Char :=
  let afterLastDot := l.reverse.takeWhile (fun c => c ≠ '.')
  if afterLastDot.length = l.length then (l, [])
  else
    let dotIndex := l.length - afterLastDot.length - 1
    if (l.take dotIndex).any (fun c => c ≠ '.') then (l.take dotIndex, l.drop dotIndex)
    else (l, [])

/-- The character-level pipeline of sanitize_filename before the length cap:
drop null bytes, take the basename, delete dot-dot pairs, replace
Windows-dangerous characters, replace disallowed characters, collapse
underscore and whitespace runs, and strip edge underscores, dots and spaces. -/
def cleanedChars (filename : String) : List Char :=
  let cs0 := filename.data.filter (fun c => c ≠ '\x00')
  let cs1 := removeDotDot (basenameChars cs0)
  let cs2 := cs1.map (fun c => if windowsDangerous.contains c then '_' else c)
  let cs3 := cs2.map (fun c => if keepChar c then c else '_')
  stripChars (collapseRuns cs3)

/-- The length cap of sanitize_filename: when longer than 255 characters,
keep the extension and slice the stem to the remaining budget (a Python
slice with a possibly negative bound). -/
def capLength (l : List Char) : List Char :=
  if 255 < l.length then
    let p := splitext l
    pySliceTo p.1 (255 - (p.2.length : Int)) ++ p.2
  else l

/-- sanitize_filename from app/utils/file_sanitization.py. -/
def sanitize_filename (filename : String) : String :=
  if filename = "" then "file"
  else
    let r := capLength (cleanedChars filename)
    if r = [] then "file" else String.mk r

/-! ### Helper lemmas for sanitize_filename -/

/-- Safe-character predicate: either kept by the character-class substitution
or the underscore it substitutes. Every character of the cleaned name
satisfies this. -/
def safeChar (c : Char) : Bool := keepChar c || c = '_'

theorem mem_collapseAux {c : Char} :
    ∀ {b : Bool} {l : List Char}, c ∈ collapseAux b l → c = '_' ∨ c ∈ l := by
  intro b l
  induction l generalizing b with
  | nil => intro h; cases b <;> simp [collapseAux] at h
  | cons d rest ih =>
    intro h
    cases b with
    | true =>
      simp only [collapseAux] at h
      split at h
      · rcases ih h with h1 | h1
        · exact Or.inl h1
        · exact Or.inr (List.mem_cons_of_mem _ h1)
      · rcases List.mem_cons.mp h with h1 | h1
        · exact Or.inr (h1 ▸ List.mem_cons_self _ _)
        · rcases ih h1 with h2 | h2
          · exact Or.inl h2
          · exact Or.inr (List.mem_cons_of_mem _ h2)
    | false =>
      simp only [collapseAux] at h
      split at h
      · rcases List.mem_cons.mp h with h1 | h1
        · exact Or.inl h1
        · rcases ih h1 with h2 | h2
          · exact Or.inl h2
          · exact Or.inr (List.mem_cons_of_mem _ h2)
      · rcases List.mem_cons.mp h with h1 | h1
        · exact Or.inr (h1 ▸ List.mem_cons_self _ _)
        · rcases ih h1 with h2 | h2
          · exact Or.inl h2
          · exact Or.inr (List.mem_cons_of_mem _ h2)

theorem mem_stripChars {c : Char} {l : List Char} (h : c ∈ stripChars l) : c ∈ l := by
  unfold stripChars at h
  rw [List.mem_reverse] at h
  have h2 := (List.dropWhile_sublist _).subset h
  rw [List.mem_reverse] at h2
  exact (List.dropWhile_sublist _).subset h2

theorem splitext_subset (l : List Char) :
    (splitext l).1 ⊆ l ∧ (splitext l).2 ⊆ l := by
  simp only [splitext]
  split
  · exact ⟨fun _ h => h, by simp⟩
  · split
    · exact ⟨List.take_subset _ _, List.drop_subset _ _⟩
    · exact ⟨fun _ h => h, by simp⟩

theorem mem_capLength {c : Char} {l : List Char} (h : c ∈ capLength l) : c ∈ l := by
  unfold capLength at h
  split at h
  · rcases List.mem_append.mp h with h1 | h1
    · unfold pySliceTo at h1
      split at h1
      · exact (splitext_subset l).1 (List.take_subset _ _ h1)
      · exact (splitext_subset l).1 (List.take_subset _ _ h1)
    · exact (splitext_subset l).2 h1
  · exact h

theorem safeChar_cleanedChars {c : Char} {s : String} (h : c ∈ cleanedChars s) :
    safeChar c = true := by
  unfold cleanedChars at h
  have h1 := mem_stripChars h
  rcases mem_collapseAux h1 with h2 | h2
  · simp [safeChar, h2]
  · rcases List.mem_map.mp h2 with ⟨a, _, ha⟩
    by_cases hk : keepChar a = true
    · simp only [hk, if_true] at ha
      simp [safeChar, ha ▸ hk]
    · simp only [hk, if_false] at ha
      simp [safeChar, ← ha]

theorem safeChar_no_separators {c : Char} (h : safeChar c = true) :
    c ≠ '\x00' ∧ c ≠ '/' ∧ c ≠ '\\' := by
  refine ⟨?_, ?_, ?_⟩ <;> rintro rfl <;> revert h <;> decide

theorem string_mk_ne_empty {l : List Char} (h : l ≠ []) : String.mk l ≠ "" := by
  intro he
  exact h (congrArg String.data he)

theorem capLength_length {l : List Char} (h : (splitext l).2.length ≤ 255) :
    (capLength l).length ≤ 255 := by
  unfold capLength
  split
  · rw [List.length_append]
    unfold pySliceTo
    split
    · omega
    · have h1 := List.length_take_le ((255 - ((splitext l).2.length : Int)).toNat) (splitext l).1
      omega
  · omega

set_option maxRecDepth 8000 in
/-- C10 counterexample: the filename consisting of a stem of one character and
an extension of 301 characters (a dot followed by 300 letters) survives the
cleaning pipeline unchanged; the length cap slices the stem to an empty string
but keeps the whole extension, so the result has 301 characters, exceeding the
claimed 255-character bound. -/
theorem C10_counterexample :
    255 < (sanitize_filename (String.mk ('a' :: '.' :: List.replicate 300 'b'))).length := by
  decide

/-- C10 (amended): for every input string, sanitize_filename returns a
non-empty string containing no null bytes and no path separators; the
255-character bound additionally holds whenever the extension of the cleaned
name is at most 255 characters long (an over-long extension is preserved
whole by the length cap and can push the result past 255 characters). -/
theorem C10_sanitize_filename_safety (s : String) :
    sanitize_filename s ≠ "" ∧
    (∀ c ∈ (sanitize_filename s).data, c ≠ '\x00' ∧ c ≠ '/' ∧ c ≠ '\\') ∧
    ((splitext (cleanedChars s)).2.length ≤ 255 → (sanitize_filename s).length ≤ 255) := by
  simp only [sanitize_filename]
  split
  · exact ⟨by decide, by decide, fun _ => by decide⟩
  · split
    · exact ⟨by decide, by decide, fun _ => by decide⟩
    · next h2 =>
      refine ⟨string_mk_ne_empty h2, ?_, ?_⟩
      · intro c hc
        exact safeChar_no_separators (safeChar_cleanedChars (mem_capLength hc))
      · intro hext
        exact capLength_length hext

/-- Witness for C10 (amended) at a concrete input. -/
theorem C10_sanitize_filename_safety_witness :
    sanitize_filename "relatorio.pdf" ≠ "" ∧ (sanitize_filename "relatorio.pdf").length ≤ 255 :=
  ⟨(C10_sanitize_filename_safety "relatorio.pdf").1,
   (C10_sanitize_filename_safety "relatorio.pdf").2.2 (by decide)⟩

/-! ## Part 2: PDF sanitization (app/utils/file_sanitization.py, sanitize_pdf)

A pikepdf document is modelled as a record of exactly the structure the
sanitizer inspects: the Names tree with its JavaScript and EmbeddedFiles
entries, the document-level OpenAction and AA keys, and the per-page AA keys.
Opening a byte buffer with pikepdf is modelled as an environment function into
an outcome type whose failure constructors correspond to the exception
handlers of sanitize_pdf. -/

/-- A PDF page, as far as the sanitizer is concerned: whether it carries an
AA (additional actions) key. -/
structure PdfPage where
  hasAA : Bool
deriving Repr, DecidableEq

/-- A parsed PDF document, as far as the sanitizer is concerned. -/
structure PdfDoc where
  hasNames : Bool
  namesHasJavaScript : Bool
  namesHasEmbeddedFiles : Bool
  hasOpenAction : Bool
  hasAA : Bool
  pages : List PdfPage
deriving Repr, DecidableEq

/-- Outcome of pikepdf.open on a byte buffer: a parsed document, a
PasswordError, a PdfError, or any other exception raised inside the
processing block (modelled as one constructor, since sanitize_pdf treats
every such exception alike). -/
inductive PdfOpenResult where
  | ok (doc : PdfDoc)
  | passwordError
  | pdfError
  | unexpectedError
deriving Repr, DecidableEq

/-- Result of sanitize_pdf: returned bytes, or the message of the raised
ValueError. -/
inductive SanitizeResult where
  | ok (content : List Nat)
  | error (msg : String)
deriving Repr, DecidableEq

/-- The function _remove_dangerous_elements: clears the dangerous keys and
reports whether any modification was made. The Names-tree entries are only
touched when the Names tree is present; page AA keys are cleared for every
page. -/
def remove_dangerous_elements (pdf : PdfDoc) : PdfDoc × Bool :=
  let modified := false
  let step1 :=
    if pdf.hasNames then
      let r1 := if pdf.namesHasJavaScript then
          ({ pdf with namesHasJavaScript := false }, true) else (pdf, modified)
      if r1.1.namesHasEmbeddedFiles then
        ({ r1.1 with namesHasEmbeddedFiles := false }, true) else r1
    else (pdf, modified)
  let step2 :=
    if step1.1.hasOpenAction then
      ({ step1.1 with hasOpenAction := false }, true) else step1
  let step3 :=
    if step2.1.hasAA then ({ step2.1 with hasAA := false }, true) else step2
  let anyPageAA := step3.1.pages.any (fun p => p.hasAA)
  ({ step3.1 with pages := step3.1.pages.map (fun p => { p with hasAA := false }) },
   step3.2 || anyPageAA)

/-- The error message raised for a password-protected PDF. -/
def passwordErrorMsg : String := "PDF protegido por senha não é permitido"

/-- The error message raised for a corrupt PDF. -/
def corruptErrorMsg : String := "PDF inválido ou corrompido. Por favor, tente outro arquivo."

/-- The error message raised on any unexpected exception. -/
def unexpectedErrorMsg : String :=
  "Não foi possível processar este PDF. Por favor, tente outro arquivo."

/-- The function sanitize_pdf. The environment supplies pikepdf: whether the
library is importable at all (the source returns the input unchanged when it
is not), the outcome of opening the given bytes, and the re-serialization
performed by pdf.save. When the document parses and no dangerous element was
found, the original bytes are returned unchanged; when a modification was
made, the cleaned document is re-serialized; every failure outcome raises a
ValueError (modelled as the error constructor). -/
def sanitize_pdf (pikepdfAvailable : Bool) (pdfOpen : List Nat → PdfOpenResult)
    (pdfSaveBytes : PdfDoc → List Nat) (content : List Nat) : SanitizeResult :=
  if !pikepdfAvailable then .ok content
  else
    match pdfOpen content with
    | .ok pdf =>
      let r := remove_dangerous_elements pdf
      if r.2 then .ok (pdfSaveBytes r.1) else .ok content
    | .passwordError => .error passwordErrorMsg
    | .pdfError => .error corruptErrorMsg
    | .unexpectedError => .error unexpectedErrorMsg

/-- Predicate from the claim: the document carries at least one dangerous
element (document-level JavaScript or embedded-file name-tree entries, an
OpenAction, document-level additional actions, or per-page additional
actions). -/
def hasDangerousElements (pdf : PdfDoc) : Bool :=
  (pdf.hasNames && (pdf.namesHasJavaScript || pdf.namesHasEmbeddedFiles)) ||
  pdf.hasOpenAction || pdf.hasAA || pdf.pages.any (fun p => p.hasAA)

theorem remove_dangerous_elements_modified (pdf : PdfDoc) :
    (remove_dangerous_elements pdf).2 = hasDangerousElements pdf := by
  rcases pdf with ⟨n, js, emb, oa, aa, pages⟩
  cases n <;> cases js <;> cases emb <;> cases oa <;> cases aa <;>
    simp [remove_dangerous_elements, hasDangerousElements]

theorem remove_dangerous_elements_no_openAction (pdf : PdfDoc) :
    (remove_dangerous_elements pdf).1.hasOpenAction = false := by
  rcases pdf with ⟨n, js, emb, oa, aa, pages⟩
  cases n <;> cases js <;> cases emb <;> cases oa <;> cases aa <;>
    simp [remove_dangerous_elements]

/-- C1: whenever opening the PDF does not complete normally — the document is
password-protected, its structure cannot be parsed, or any other exception is
raised during processing — sanitize_pdf raises a ValueError with the
corresponding message and therefore never returns the input bytes as an
unsanitized pass-through. (The library itself is assumed importable,
matching the deployed configuration; the source skips sanitization entirely
when pikepdf is absent.) -/
theorem C1_sanitize_pdf_fails_closed (pdfOpen : List Nat → PdfOpenResult)
    (pdfSaveBytes : PdfDoc → List Nat) (content : List Nat) :
    (pdfOpen content = .passwordError →
      sanitize_pdf true pdfOpen pdfSaveBytes content = .error passwordErrorMsg) ∧
    (pdfOpen content = .pdfError →
      sanitize_pdf true pdfOpen pdfSaveBytes content = .error corruptErrorMsg) ∧
    (pdfOpen content = .unexpectedError →
      sanitize_pdf true pdfOpen pdfSaveBytes content = .error unexpectedErrorMsg) := by
  refine ⟨fun h => ?_, fun h => ?_, fun h => ?_⟩ <;> simp [sanitize_pdf, h]

/-- Witness for C1: a password-protected buffer is rejected with the
password-error message. -/
theorem C1_sanitize_pdf_fails_closed_witness :
    sanitize_pdf true (fun _ => .passwordError) (fun _ => []) [37, 80, 68, 70] =
      .error passwordErrorMsg :=
  (C1_sanitize_pdf_fails_closed (fun _ => .passwordError) (fun _ => [])
    [37, 80, 68, 70]).1 rfl

/-- C7: sanitizing a PDF that parses to a document with none of the dangerous
elements returns the input bytes unchanged; sanitizing one whose document
carries an OpenAction re-serializes a document from which the key is gone, so
that (for any faithful reading of the saved bytes) the result no longer
contains the key. -/
theorem C7_sanitize_pdf_idempotent (pdfOpen : List Nat → PdfOpenResult)
    (pdfSaveBytes : PdfDoc → List Nat) (containsOpenActionKey : List Nat → Bool)
    (content : List Nat) (doc : PdfDoc) :
    (pdfOpen content = .ok doc → hasDangerousElements doc = false →
      sanitize_pdf true pdfOpen pdfSaveBytes content = .ok content) ∧
    ((∀ d, containsOpenActionKey (pdfSaveBytes d) = d.hasOpenAction) →
      pdfOpen content = .ok doc → doc.hasOpenAction = true →
      ∃ out, sanitize_pdf true pdfOpen pdfSaveBytes content = .ok out ∧
        containsOpenActionKey out = false) := by
  constructor
  · intro hopen hclean
    simp [sanitize_pdf, hopen, remove_dangerous_elements_modified, hclean]
  · intro hfaithful hopen hoa
    have hmod : (remove_dangerous_elements doc).2 = true := by
      rw [remove_dangerous_elements_modified]
      simp [hasDangerousElements, hoa]
    refine ⟨pdfSaveBytes (remove_dangerous_elements doc).1, ?_, ?_⟩
    · simp [sanitize_pdf, hopen, hmod]
    · rw [hfaithful, remove_dangerous_elements_no_openAction]

/-- Witness for C7: a clean one-page document passes through byte-identically,
and a document with an OpenAction is saved without the key. -/
theorem C7_sanitize_pdf_idempotent_witness :
    (sanitize_pdf true (fun _ => .ok ⟨false, false, false, false, false, [⟨false⟩]⟩)
        (fun _ => []) [1, 2] = .ok [1, 2]) ∧
    (∃ out, sanitize_pdf true (fun _ => .ok ⟨false, false, false, true, false, [⟨false⟩]⟩)
        (fun d => [if d.hasOpenAction then 1 else 0]) [1, 2] = .ok out ∧
        (out == [1]) = false) :=
  ⟨(C7_sanitize_pdf_idempotent (fun _ => .ok ⟨false, false, false, false, false, [⟨false⟩]⟩)
      (fun _ => []) (fun _ => false) [1, 2] ⟨false, false, false, false, false, [⟨false⟩]⟩).1
      rfl (by decide),
   (C7_sanitize_pdf_idempotent (fun _ => .ok ⟨false, false, false, true, false, [⟨false⟩]⟩)
      (fun d => [if d.hasOpenAction then 1 else 0]) (fun l => l == [1]) [1, 2]
      ⟨false, false, false, true, false, [⟨false⟩]⟩).2
      (fun d => by cases h : d.hasOpenAction <;> simp [h]) rfl rfl⟩

/-! ## Part 3: upload content validation (app/services/file_service.py,
_validate_file_content) and the storage retry framework
(app/services/storage_service.py, retry_file_operation) -/

/-- The allowed MIME types for uploads. -/
def ALLOWED_MIME_TYPES : List String := ["application/pdf", "image/jpeg", "image/png"]

/-- Result of _validate_file_content. -/
structure ValidationResult where
  is_valid : Bool
  mime_type : Option String
  error : Option String
deriving Repr, DecidableEq

/-- The size-error message, carrying the human-readable limit in megabytes
(the source formats max_size over 1024 squared with no decimals; the
configured limit is an exact number of megabytes). -/
def sizeErrorMsg (maxSize : Nat) : String :=
  "Arquivo muito grande. Tamanho máximo: " ++ toString (maxSize / (1024 * 1024)) ++ "MB"

/-- The unrecognized-type error message. -/
def unrecognizedTypeMsg : String := "Não foi possível identificar o tipo de arquivo"

/-- The disallowed-type error message, listing the allowed set. -/
def disallowedTypeMsg : String := "Tipo de arquivo não permitido. Use: PDF, JPG, PNG"

/-- The function _validate_file_content: size check first, then MIME sniffing
(the detect function models filetype.guess over the byte buffer), then the
allowed-set check. -/
def validate_file_content (detect : List Nat → Option String) (maxSize : Nat)
    (content : List Nat) (fileSize : Nat) : ValidationResult :=
  if maxSize < fileSize then
    { is_valid := false, mime_type := none, error := some (sizeErrorMsg maxSize) }
  else
    match detect content with
    | none => { is_valid := false, mime_type := none, error := some unrecognizedTypeMsg }
    | some mime =>
      if !(ALLOWED_MIME_TYPES.contains mime) then
        { is_valid := false, mime_type := some mime, error := some disallowedTypeMsg }
      else { is_valid := true, mime_type := some mime, error := none }

/-- C5: a buffer whose size equals the configured maximum is not rejected for
size (when its sniffed type is allowed it is accepted outright), while a
buffer one byte over the maximum is rejected with the size error carrying the
human-readable limit — for every sniffing function, which shows the size
check is applied before content sniffing and before the allowed-type check. -/
theorem C5_validate_size_boundary (detect : List Nat → Option String) (maxSize : Nat)
    (content : List Nat) :
    (∀ mime, detect content = some mime → ALLOWED_MIME_TYPES.contains mime = true →
      validate_file_content detect maxSize content maxSize =
        { is_valid := true, mime_type := some mime, error := none }) ∧
    validate_file_content detect maxSize content (maxSize + 1) =
      { is_valid := false, mime_type := none, error := some (sizeErrorMsg maxSize) } := by
  constructor
  · intro mime hdet hallowed
    have hmem : mime ∈ ALLOWED_MIME_TYPES := by simpa using hallowed
    simp [validate_file_content, hdet, hmem]
  · simp [validate_file_content]

/-- Witness for C5 at the configured 10 MB limit with a PDF sniffer. -/
theorem C5_validate_size_boundary_witness :
    validate_file_content (fun _ => some "application/pdf") 10485760 [37] 10485760 =
      { is_valid := true, mime_type := some "application/pdf", error := none } :=
  (C5_validate_size_boundary (fun _ => some "application/pdf") 10485760 [37]).1
    "application/pdf" rfl (by decide)

/-- Outcome of one invocation of an operation wrapped by
retry_file_operation: a value, an exception of a retryable class (OSError,
IOError, StorageRetryableError), or a non-retryable exception. -/
inductive OpOutcome (α : Type) where
  | ok (value : α)
  | retryable (msg : String)
  | nonRetryable (msg : String)
deriving Repr, DecidableEq

/-- Observable outcome of the wrapped call: the returned value, the
StorageRetryableError raised on exhaustion (wrapping the last cause), or a
non-retryable exception propagating unchanged. -/
inductive RetryOutcome (α : Type) where
  | ok (value : α)
  | exhausted (msg : String)
  | raised (msg : String)
deriving Repr, DecidableEq

/-- The retry loop of retry_file_operation, indexed by the current attempt
number and the remaining retries; the second component counts how many times
the operation was invoked. The operation is modelled as a function of the
attempt number so that per-attempt behavior can be expressed. -/
def retryFrom {α : Type} (op : Nat → OpOutcome α) (attempt : Nat) :
    Nat → RetryOutcome α × Nat
  | 0 =>
    match op attempt with
    | .ok v => (.ok v, 1)
    | .nonRetryable m => (.raised m, 1)
    | .retryable m =>
      (.exhausted ("Operation failed after " ++ toString (attempt + 1) ++ " attempts: " ++ m), 1)
  | remaining + 1 =>
    match op attempt with
    | .ok v => (.ok v, 1)
    | .nonRetryable m => (.raised m, 1)
    | .retryable _ =>
      let r := retryFrom op (attempt + 1) remaining
      (r.1, r.2 + 1)

/-- The decorator retry_file_operation: run the operation with up to
max_retries additional attempts after the first. (The inter-attempt sleep and
backoff doubling only affect timing, not the outcome, and are not modelled.) -/
def retry_file_operation {α : Type} (maxRetries : Nat) (op : Nat → OpOutcome α) :
    RetryOutcome α × Nat :=
  retryFrom op 0 maxRetries

/-- C3: an operation that raises a retryable error on every invocation is,
with max_retries set to 2, invoked exactly 3 times and then a
StorageRetryableError wrapping the last cause is raised; a non-retryable
exception on the first invocation propagates unchanged after exactly one
invocation. -/
theorem C3_retry_exhaustion {α : Type} (op : Nat → OpOutcome α) (msgs : Nat → String) :
    ((∀ n, op n = .retryable (msgs n)) →
      retry_file_operation 2 op =
        (.exhausted ("Operation failed after 3 attempts: " ++ msgs 2), 3)) ∧
    (∀ m, op 0 = .nonRetryable m → retry_file_operation 2 op = (.raised m, 1)) := by
  constructor
  · intro h
    simp only [retry_file_operation, retryFrom, h 0, h 1, h 2]
    rfl
  · intro m h
    simp [retry_file_operation, retryFrom, h]

/-- Witness for C3: a concrete always-failing operation and a concrete
non-retryable one. -/
theorem C3_retry_exhaustion_witness :
    (retry_file_operation 2 (fun _ => (OpOutcome.retryable "disk detached" : OpOutcome Nat)) =
      (.exhausted "Operation failed after 3 attempts: disk detached", 3)) ∧
    (retry_file_operation 2 (fun n => if n = 0 then (OpOutcome.nonRetryable "bad input" : OpOutcome Nat)
        else .ok 0) = (.raised "bad input", 1)) :=
  ⟨(C3_retry_exhaustion (fun _ => (OpOutcome.retryable "disk detached" : OpOutcome Nat))
      (fun _ => "disk detached")).1 (fun _ => rfl),
   (C3_retry_exhaustion (fun n => if n = 0 then (OpOutcome.nonRetryable "bad input" : OpOutcome Nat)
      else .ok 0) (fun _ => "")).2 "bad input" rfl⟩

/-! ## Part 4: combined-PDF generation
(app/services/pdf_generation_service.py with the repository helpers of
app/repositories/document_repository.py and file_exists of
app/utils/file_utils.py)

The database is modelled as the lists of process and document rows this
service touches; the filesystem as an association list from paths to file
contents, where the content of a per-document PDF is its list of pages
(abstract page identifiers). Only the Document columns read by this service
are modelled; display-only columns (filenames, sizes, timestamps) are
omitted. -/

/-- DocumentType from app/models/document.py. -/
inductive DocumentType where
  | formulario
  | declaracao
  | receita
  | relatorio
  | documento_pessoal
  | exame
  | pdf_combinado
  | outro
deriving Repr, DecidableEq

/-- The string value of each DocumentType member. -/
def DocumentType.value : DocumentType → String
  | .formulario => "formulario"
  | .declaracao => "declaracao"
  | .receita => "receita"
  | .relatorio => "relatorio"
  | .documento_pessoal => "documento_pessoal"
  | .exame => "exame"
  | .pdf_combinado => "pdf_combinado"
  | .outro => "outro"

/-- ValidationStatus from app/models/document.py. -/
inductive ValidationStatus where
  | pending
  | valid
  | invalid
deriving Repr, DecidableEq

/-- A Document row, restricted to the columns the generation service reads. -/
structure Document where
  process_id : Nat
  document_type : DocumentType
  validation_status : ValidationStatus
  file_path : String
deriving Repr, DecidableEq

/-- A Process row, restricted to the columns the generation service reads. -/
structure Process where
  id : Nat
  patient_name : String
  process_type : String
deriving Repr, DecidableEq

/-- The database state: process rows and document rows in insertion order. -/
structure DB where
  processes : List Process
  documents : List Document
deriving Repr, DecidableEq

/-- The filesystem: an association list from paths to file contents, where a
content is the list of pages of the stored PDF. A later binding for the same
path shadows an earlier one. -/
abbrev FS := List (String × List Nat)

/-- Path lookup in the filesystem. -/
def lookupFS (fs : FS) (path : String) : Option (List Nat) := fs.lookup path

/-- file_exists from app/utils/file_utils.py: false for an empty path,
otherwise a filesystem existence check. -/
def file_exists (fs : FS) (path : String) : Bool :=
  if path = "" then false else (lookupFS fs path).isSome

/-- delete_file from app/services/file_service.py: unlink the path if it
exists, reporting whether a file was deleted. -/
def delete_file (fs : FS) (path : String) : Bool × FS :=
  if (lookupFS fs path).isSome then
    (true, fs.filter (fun e => decide (e.1 ≠ path)))
  else (false, fs)

/-- DOCUMENT_TYPE_ORDER from app/services/pdf_generation_service.py. -/
def DOCUMENT_TYPE_ORDER : List String :=
  ["formulario", "declaracao", "receita", "relatorio", "documento_pessoal", "exame"]

/-- PDFValidator.get_doc_order: index of the document type in the precedence
list, or the list length for a type outside it (the source catches the
ValueError of list.index and returns len). -/
def get_doc_order (doc : Document) : Nat :=
  DOCUMENT_TYPE_ORDER.indexOf doc.document_type.value

/-- Sorting precedence used by the merge-input ordering. -/
def docOrderLe (a b : Document) : Prop := get_doc_order a ≤ get_doc_order b

instance : DecidableRel docOrderLe := fun _ _ => Nat.decLe _ _

instance : IsTotal Document docOrderLe := ⟨fun _ _ => Nat.le_total _ _⟩

instance : IsTrans Document docOrderLe := ⟨fun _ _ _ => Nat.le_trans⟩

/-- PDFValidator.get_valid_documents: valid documents whose type is in the
precedence list, followed by valid ad-hoc staff uploads (type outro), sorted
stably by precedence; none when nothing qualifies. Python list.sort is
stable, and insertion sort with a non-strict comparison computes the same
stable reordering. -/
def get_valid_documents (documents : List Document) : Option (List Document) :=
  let valid_documents := documents.filter (fun d =>
    decide (d.validation_status = ValidationStatus.valid ∧
      d.document_type.value ∈ DOCUMENT_TYPE_ORDER))
  let admin_documents := documents.filter (fun d =>
    decide (d.document_type = DocumentType.outro ∧
      d.validation_status = ValidationStatus.valid))
  let all := valid_documents ++ admin_documents
  if all.isEmpty then none else some (all.insertionSort docOrderLe)

/-- Environment of the generation service: whether saving the combined PDF at
a path succeeds (pikepdf.save plus the post-save existence check), the
configured upload directory, and the PROCESS_TYPE_TITLES table. -/
structure Env where
  writeOk : String → Bool
  upload_dir : String
  process_type_titles : List (String × String)

/-- PDFMerger.merge_documents: concatenate the pages of each input document
in order, skipping documents whose backing file is missing, then save the
result at the output path; on a save failure nothing is written and false
is returned. -/
def merge_documents (env : Env) (fs : FS) (documents : List Document)
    (output_path : String) : Bool × FS :=
  let pages := documents.foldl (fun acc d =>
    match lookupFS fs d.file_path with
    | some content => acc ++ content
    | none => acc) ([] : List Nat)
  if env.writeOk output_path then (true, (output_path, pages) :: fs)
  else (false, fs)

/-- get_combined_pdf_for_process from the document repository: the first
combined-PDF row of the process. -/
def get_combined_pdf_for_process (db : DB) (process_id : Nat) : Option Document :=
  (db.documents.filter (fun d =>
    decide (d.process_id = process_id ∧ d.document_type = DocumentType.pdf_combinado))).head?

/-- delete_combined_pdfs_for_process from the document repository: remove
every combined-PDF row of the process. -/
def delete_combined_pdfs_for_process (db : DB) (process_id : Nat) : DB :=
  { db with documents := db.documents.filter (fun d =>
      decide (¬ (d.process_id = process_id ∧ d.document_type = DocumentType.pdf_combinado))) }

/-- The filename of a combined PDF: sanitized patient name (or a fallback for
an empty name), the process-type title (defaulting to the raw type value),
and the pdf extension. -/
def generate_pdf_filename (env : Env) (process : Process) : String :=
  (if process.patient_name ≠ "" then sanitize_filename process.patient_name
   else "Desconhecido") ++ " - " ++
  ((env.process_type_titles.lookup process.process_type).getD process.process_type) ++ ".pdf"

/-- get_generated_pdfs_dir: the generated-PDFs directory under the upload
directory. -/
def get_generated_pdfs_dir (env : Env) : String := env.upload_dir ++ "/generated_pdfs"

/-- The output path of the combined PDF of a process. -/
def combined_output_path (env : Env) (process : Process) : String :=
  get_generated_pdfs_dir env ++ "/" ++ generate_pdf_filename env process

/-- generate_combined_pdf: fetch the process, delete existing combined PDFs
(files then rows), collect and sort the valid documents, merge them into the
output path, and on success persist the new combined-PDF row; returns the
generated path, or none when the process is missing, no valid documents
exist, or the merge fails. -/
def generate_combined_pdf (env : Env) (db : DB) (fs : FS) (process_id : Nat) :
    Option String × DB × FS :=
  match db.processes.find? (fun p => decide (p.id = process_id)) with
  | none => (none, db, fs)
  | some process =>
    let documents := db.documents.filter (fun d => decide (d.process_id = process_id))
    let existing := documents.filter (fun d =>
      decide (d.document_type = DocumentType.pdf_combinado))
    let fs1 := existing.foldl (fun f d => (delete_file f d.file_path).2) fs
    let db1 := if existing.isEmpty then db else delete_combined_pdfs_for_process db process_id
    match get_valid_documents documents with
    | none => (none, db1, fs1)
    | some valid_docs =>
      let output_path := combined_output_path env process
      let r := merge_documents env fs1 valid_docs output_path
      if r.1 then
        let newDoc : Document :=
          { process_id := process_id, document_type := DocumentType.pdf_combinado,
            validation_status := ValidationStatus.valid, file_path := output_path }
        (some output_path, { db1 with documents := db1.documents ++ [newDoc] }, r.2)
      else (none, db1, r.2)

/-- PDFEnsureResult from app/services/pdf_generation_service.py. The error
field exists on the dataclass but is never populated by the service. -/
structure PDFEnsureResult where
  pdf : Option Document
  generated : Bool
  skipped : Bool
  skip_reason : Option String
  error : Option String
deriving Repr, DecidableEq

/-- The exists property of PDFEnsureResult. -/
def PDFEnsureResult.existsPdf (r : PDFEnsureResult) : Bool := r.pdf.isSome

/-- The generation tail of ensure_combined_pdf, reached when no usable cached
combined PDF exists: attempt generation, re-fetch the combined-PDF row on
success and report generated; on any generation failure report skipped with
reason no_valid_docs. -/
def ensure_generate (env : Env) (db : DB) (fs : FS) (process_id : Nat) :
    PDFEnsureResult × DB × FS :=
  match generate_combined_pdf env db fs process_id with
  | (some _, db2, fs2) =>
    match get_combined_pdf_for_process db2 process_id with
    | some c =>
      ({ pdf := some c, generated := true, skipped := false, skip_reason := none,
         error := none }, db2, fs2)
    | none =>
      ({ pdf := none, generated := false, skipped := true,
         skip_reason := some "no_valid_docs", error := none }, db2, fs2)
  | (none, db2, fs2) =>
    ({ pdf := none, generated := false, skipped := true,
       skip_reason := some "no_valid_docs", error := none }, db2, fs2)

/-- ensure_combined_pdf: return the existing combined PDF unchanged when its
backing file is present (cache hit, no state change); otherwise — no row, or
a stale row whose backing file is missing — fall through to the generation
tail. -/
def ensure_combined_pdf (env : Env) (db : DB) (fs : FS) (process_id : Nat) :
    PDFEnsureResult × DB × FS :=
  match get_combined_pdf_for_process db process_id with
  | some c =>
    if file_exists fs c.file_path then
      ({ pdf := some c, generated := false, skipped := false, skip_reason := none,
         error := none }, db, fs)
    else ensure_generate env db fs process_id
  | none => ensure_generate env db fs process_id

/-- Python dict assignment on an association list keyed by process id: update
the binding in place when present, append otherwise. -/
def dictInsert (m : List (Nat × PDFEnsureResult)) (k : Nat) (v : PDFEnsureResult) :
    List (Nat × PDFEnsureResult) :=
  if (m.lookup k).isSome then m.map (fun e => if e.1 = k then (k, v) else e)
  else m ++ [(k, v)]

/-- The loop of ensure_combined_pdfs_batch over the given process ids,
threading the database and filesystem state. -/
def batchGo (env : Env) : List Nat → List (Nat × PDFEnsureResult) × DB × FS →
    List (Nat × PDFEnsureResult) × DB × FS
  | [], acc => acc
  | process_id :: rest, (results, db, fs) =>
    let r := ensure_combined_pdf env db fs process_id
    batchGo env rest (dictInsert results process_id r.1, r.2.1, r.2.2)

/-- ensure_combined_pdfs_batch: apply ensure_combined_pdf to every id in the
list, accumulating per-item outcomes in a dict. -/
def ensure_combined_pdfs_batch (env : Env) (db : DB) (fs : FS) (process_ids : List Nat) :
    List (Nat × PDFEnsureResult) × DB × FS :=
  batchGo env process_ids ([], db, fs)

/-- Counts aggregated by ensure_combined_pdfs_batch for its completion log. -/
structure BatchCounts where
  existing : Nat
  generated : Nat
  skipped : Nat
deriving Repr, DecidableEq

/-- The aggregation over results.values() at the end of
ensure_combined_pdfs_batch: generated, skipped, and existing (a PDF is
present but was not just generated) counts. -/
def batch_counts (results : List (Nat × PDFEnsureResult)) : BatchCounts :=
  { generated := ((results.map (fun e => e.2)).filter (fun r => r.generated)).length,
    skipped := ((results.map (fun e => e.2)).filter (fun r => r.skipped)).length,
    existing := ((results.map (fun e => e.2)).filter
      (fun r => r.existsPdf && !r.generated)).length }

/-! ### Example fixtures used in concrete parts of the claims -/

/-- Example valid exam document. -/
def doc_exame : Document := ⟨1, .exame, .valid, "exame_1.pdf"⟩

/-- Example valid form document. -/
def doc_formulario : Document := ⟨1, .formulario, .valid, "formulario_1.pdf"⟩

/-- Example valid prescription document. -/
def doc_receita : Document := ⟨1, .receita, .valid, "receita_1.pdf"⟩

/-- Example filesystem backing the three example documents. -/
def fs_example : FS :=
  [("exame_1.pdf", [31, 32]), ("formulario_1.pdf", [11]), ("receita_1.pdf", [21, 22])]

/-- Example environment where every write succeeds. -/
def env_ok : Env := ⟨fun _ => true, "uploads", []⟩

/-- C4: merge inputs are sorted by the fixed category precedence — the output
of get_valid_documents is always pairwise ordered by get_doc_order, named
categories take indices below the list length while any category outside the
named list (such as outro) takes the list length and therefore sorts after
all named categories — and merging documents submitted in categories
[exam, form, prescription] yields pages in the order form, prescription,
exam. -/
theorem C4_merge_input_ordering :
    (∀ documents l, get_valid_documents documents = some l → l.Pairwise docOrderLe) ∧
    (∀ d : Document, d.document_type = DocumentType.outro →
      get_doc_order d = DOCUMENT_TYPE_ORDER.length) ∧
    (∀ d : Document, d.document_type.value ∈ DOCUMENT_TYPE_ORDER →
      get_doc_order d < DOCUMENT_TYPE_ORDER.length) ∧
    (get_valid_documents [doc_exame, doc_formulario, doc_receita] =
        some [doc_formulario, doc_receita, doc_exame] ∧
      lookupFS (merge_documents env_ok fs_example
          [doc_formulario, doc_receita, doc_exame] "out.pdf").2 "out.pdf" =
        some [11, 21, 22, 31, 32]) := by
  refine ⟨?_, ?_, ?_, by decide, by decide⟩
  · intro documents l h
    simp only [get_valid_documents] at h
    split at h
    · exact absurd h (by simp)
    · rw [Option.some_inj] at h
      subst h
      exact List.sorted_insertionSort docOrderLe _
  · intro d hd
    simp only [get_doc_order, hd]
    decide
  · intro d hd
    unfold get_doc_order
    exact List.indexOf_lt_length.mpr hd

/-- Witness for C4: the general sortedness statement applied to the concrete
three-document example. -/
theorem C4_merge_input_ordering_witness :
    [doc_formulario, doc_receita, doc_exame].Pairwise docOrderLe :=
  C4_merge_input_ordering.1 [doc_exame, doc_formulario, doc_receita]
    [doc_formulario, doc_receita, doc_exame] (by decide)

/-! ### State lemmas about generation and the combined-PDF row -/

theorem get_combined_as_double_filter (db : DB) (pid : Nat) :
    get_combined_pdf_for_process db pid =
      ((db.documents.filter (fun d => decide (d.process_id = pid))).filter
        (fun d => decide (d.document_type = DocumentType.pdf_combinado))).head? := by
  unfold get_combined_pdf_for_process
  congr 1
  rw [List.filter_filter]
  apply List.filter_congr
  intro d _
  simp [Bool.and_comm]

theorem get_combined_delete (db : DB) (pid : Nat) :
    get_combined_pdf_for_process (delete_combined_pdfs_for_process db pid) pid = none := by
  unfold get_combined_pdf_for_process delete_combined_pdfs_for_process
  rw [List.head?_eq_none_iff, List.filter_filter, List.filter_eq_nil_iff]
  intro d _
  simp only [Bool.and_eq_true, decide_eq_true_eq]
  tauto

/-- The database component after the delete-old step of generate_combined_pdf
contains no combined-PDF row for the process. -/
theorem filter_combined_cleanup_nil (db : DB) (pid : Nat) :
    get_combined_pdf_for_process
      (if ((db.documents.filter (fun d => decide (d.process_id = pid))).filter
          (fun d => decide (d.document_type = DocumentType.pdf_combinado))).isEmpty
        then db else delete_combined_pdfs_for_process db pid) pid = none := by
  split
  · next hE =>
    rw [get_combined_as_double_filter]
    rw [List.isEmpty_iff] at hE
    simp [hE]
  · exact get_combined_delete db pid

theorem lookup_cons_self {v : List Nat} {fs : FS} (p : String) :
    lookupFS ((p, v) :: fs) p = some v := by
  simp [lookupFS, List.lookup]

theorem combined_output_path_ne_empty (env : Env) (process : Process) :
    combined_output_path env process ≠ "" := by
  intro h
  have hlen := congrArg String.length h
  simp only [combined_output_path, get_generated_pdfs_dir, generate_pdf_filename,
    String.length_append] at hlen
  have h1 : ("/generated_pdfs" : String).length = 15 := by decide
  have h2 : ("/" : String).length = 1 := by decide
  have h3 : ("" : String).length = 0 := by decide
  omega

/-- Anatomy of a successful generation: the new combined-PDF row is the one
returned by the repository query, its backing path is the returned path, and
that path is present in the filesystem. -/
theorem generate_success_spec (env : Env) (db : DB) (fs : FS) (pid : Nat)
    (p : String) (db2 : DB) (fs2 : FS)
    (h : generate_combined_pdf env db fs pid = (some p, db2, fs2)) :
    get_combined_pdf_for_process db2 pid =
      some { process_id := pid, document_type := DocumentType.pdf_combinado,
             validation_status := ValidationStatus.valid, file_path := p } ∧
    file_exists fs2 p = true := by
  unfold generate_combined_pdf at h
  cases hproc : db.processes.find? (fun q => decide (q.id = pid)) with
  | none => rw [hproc] at h; exact absurd (congrArg (fun t => t.1) h) (by simp)
  | some process =>
    rw [hproc] at h
    simp only at h
    cases hv : get_valid_documents (db.documents.filter (fun d => decide (d.process_id = pid))) with
    | none => rw [hv] at h; exact absurd (congrArg (fun t => t.1) h) (by simp)
    | some valid_docs =>
      rw [hv] at h
      simp only [merge_documents] at h
      cases hw : env.writeOk (combined_output_path env process) with
      | false => rw [hw] at h
                 simp only [Bool.false_eq_true, if_false] at h
                 exact absurd (congrArg (fun t => t.1) h) (by simp)
      | true =>
        rw [hw] at h
        simp only [eq_self_iff_true, if_true, Prod.mk.injEq, Option.some_inj] at h
        obtain ⟨hp, hdb2, hfs2⟩ := h
        subst hp
        constructor
        · rw [← hdb2]
          rw [get_combined_as_double_filter]
          simp only [List.filter_append]
          have hnil := filter_combined_cleanup_nil db pid
          rw [get_combined_as_double_filter] at hnil
          rw [List.head?_eq_none_iff] at hnil
          rw [hnil]
          simp
        · rw [← hfs2]
          unfold file_exists
          rw [if_neg (combined_output_path_ne_empty env process)]
          rw [lookup_cons_self]
          rfl

/-- Example process row used in the ensure fixtures. -/
def proc_exemplo : Process := ⟨1, "Ana", "ldi"⟩

/-- Example environment where every write fails (merge always fails). -/
def env_write_fail : Env := ⟨fun _ => false, "uploads", []⟩

/-- Database with one valid merge-input document for process 1. -/
def db_merge_fail : DB := ⟨[proc_exemplo], [⟨1, .formulario, .valid, "f.pdf"⟩]⟩

/-- Database with no documents for process 1. -/
def db_sem_docs : DB := ⟨[proc_exemplo], []⟩

/-- Filesystem backing the single valid document. -/
def fs_um : FS := [("f.pdf", [11])]

/-- C2 counterexample: for process 1 of db_merge_fail a valid merge input
exists and generation is attempted, but the merge save fails
(env_write_fail); ensure_combined_pdf then reports skipped=true with
skip_reason no_valid_docs — the very same PDFEnsureResult value as for
db_sem_docs, where generation is skipped because no valid documents exist —
so the reported status is not distinct from skipped as the claim requires
(no combined document is persisted, which is the part of the claim that does
hold). -/
theorem C2_counterexample :
    (ensure_combined_pdf env_write_fail db_merge_fail fs_um 1).1.skipped = true ∧
    (ensure_combined_pdf env_write_fail db_merge_fail fs_um 1).1 =
      (ensure_combined_pdf env_write_fail db_sem_docs fs_um 1).1 ∧
    (get_valid_documents (db_merge_fail.documents.filter
      (fun d => decide (d.process_id = 1)))).isSome = true ∧
    (get_valid_documents (db_sem_docs.documents.filter
      (fun d => decide (d.process_id = 1)))).isSome = false := by
  decide

/-- C2 (amended): when generation is attempted (no usable cached PDF), valid
merge inputs exist, and the merge save fails, ensure_combined_pdf reports
pdf=none, generated=false, skipped=true with skip_reason no_valid_docs — the
same status shape as the no-valid-documents skip, not a distinct failure
status — and no combined document record is persisted for the request. -/
theorem C2_merge_failure_reported_as_skipped (env : Env) (db : DB) (fs : FS)
    (pid : Nat) (process : Process)
    (hnohit : ∀ c, get_combined_pdf_for_process db pid = some c →
      file_exists fs c.file_path = false)
    (hproc : db.processes.find? (fun q => decide (q.id = pid)) = some process)
    (hvalid : (get_valid_documents (db.documents.filter
      (fun d => decide (d.process_id = pid)))).isSome = true)
    (hwrite : env.writeOk (combined_output_path env process) = false) :
    (ensure_combined_pdf env db fs pid).1 =
      { pdf := none, generated := false, skipped := true,
        skip_reason := some "no_valid_docs", error := none } ∧
    get_combined_pdf_for_process (ensure_combined_pdf env db fs pid).2.1 pid = none := by
  obtain ⟨vd, hv⟩ := Option.isSome_iff_exists.mp hvalid
  have hgen : (generate_combined_pdf env db fs pid).1 = none ∧
      get_combined_pdf_for_process (generate_combined_pdf env db fs pid).2.1 pid = none := by
    unfold generate_combined_pdf
    rw [hproc]
    simp only
    rw [hv]
    simp only [merge_documents, hwrite, Bool.false_eq_true, if_false]
    constructor
    · trivial
    · exact filter_combined_cleanup_nil db pid
  have htail : (ensure_generate env db fs pid).1 =
      { pdf := none, generated := false, skipped := true,
        skip_reason := some "no_valid_docs", error := none } ∧
      get_combined_pdf_for_process (ensure_generate env db fs pid).2.1 pid = none := by
    unfold ensure_generate
    split
    · next o db2 fs2 heq =>
      rw [heq] at hgen
      exact absurd hgen.1 (by simp)
    · next db2 fs2 heq =>
      rw [heq] at hgen
      exact ⟨rfl, hgen.2⟩
  unfold ensure_combined_pdf
  cases hc : get_combined_pdf_for_process db pid with
  | none => exact htail
  | some c =>
    simp only [hnohit c hc, Bool.false_eq_true, if_false]
    exact htail

/-- Witness for C2 (amended) at the concrete merge-failure fixture. -/
theorem C2_merge_failure_reported_as_skipped_witness :
    (ensure_combined_pdf env_write_fail db_merge_fail fs_um 1).1 =
      { pdf := none, generated := false, skipped := true,
        skip_reason := some "no_valid_docs", error := none } ∧
    get_combined_pdf_for_process
      (ensure_combined_pdf env_write_fail db_merge_fail fs_um 1).2.1 1 = none :=
  C2_merge_failure_reported_as_skipped env_write_fail db_merge_fail fs_um 1 proc_exemplo
    (fun c hc => by
      rw [(by decide : get_combined_pdf_for_process db_merge_fail 1 = (none : Option Document))] at hc
      exact absurd hc (by simp))
    (by decide) (by decide) (by decide)

/-- Postcondition of the generation tail: whenever it reports a PDF, that PDF
is the combined-PDF row of the resulting database and its backing file is
present in the resulting filesystem. -/
theorem ensure_generate_pdf_spec (env : Env) (db : DB) (fs : FS) (pid : Nat)
    (c : Document) (h : (ensure_generate env db fs pid).1.pdf = some c) :
    get_combined_pdf_for_process (ensure_generate env db fs pid).2.1 pid = some c ∧
    file_exists (ensure_generate env db fs pid).2.2 c.file_path = true := by
  rcases ho : generate_combined_pdf env db fs pid with ⟨o, db2, fs2⟩
  unfold ensure_generate at h ⊢
  rw [ho] at h ⊢
  cases o with
  | none => simp at h
  | some p =>
    cases hgc : get_combined_pdf_for_process db2 pid with
    | none => simp [hgc] at h
    | some c1 =>
      have hspec := generate_success_spec env db fs pid p db2 fs2 ho
      have hc1 : c1 = ⟨pid, DocumentType.pdf_combinado, ValidationStatus.valid, p⟩ := by
        have hs := hspec.1
        rw [hgc] at hs
        exact Option.some_inj.mp hs
      simp only [hgc] at h ⊢
      have hcc : c1 = c := by simpa using h
      subst hcc
      exact ⟨rfl, by rw [hc1]; exact hspec.2⟩

/-- Postcondition of ensure_combined_pdf: whenever it reports a PDF, that PDF
is the combined-PDF row of the resulting database and its backing file is
present in the resulting filesystem. -/
theorem ensure_pdf_spec (env : Env) (db : DB) (fs : FS) (pid : Nat)
    (c : Document) (h : (ensure_combined_pdf env db fs pid).1.pdf = some c) :
    get_combined_pdf_for_process (ensure_combined_pdf env db fs pid).2.1 pid = some c ∧
    file_exists (ensure_combined_pdf env db fs pid).2.2 c.file_path = true := by
  unfold ensure_combined_pdf at h ⊢
  cases hc : get_combined_pdf_for_process db pid with
  | none =>
    rw [hc] at h
    exact ensure_generate_pdf_spec env db fs pid c h
  | some c0 =>
    rw [hc] at h
    by_cases hex : file_exists fs c0.file_path = true
    · simp only [hex, if_true] at h ⊢
      have hcc : c0 = c := by simpa using h
      subst hcc
      exact ⟨hc, hex⟩
    · simp only [Bool.not_eq_true] at hex
      simp only [hex, Bool.false_eq_true, if_false] at h ⊢
      exact ensure_generate_pdf_spec env db fs pid c h

/-- C6: when a call to ensure_combined_pdf returns a PDF (cache hit or fresh
generation), an immediately repeated call on the resulting state is a cache
hit: it returns the same combined document with generated=false and leaves
the database and the filesystem exactly as they were (no filesystem
writes). -/
theorem C6_ensure_idempotent (env : Env) (db : DB) (fs : FS) (pid : Nat)
    (c : Document) (h : (ensure_combined_pdf env db fs pid).1.pdf = some c) :
    ensure_combined_pdf env (ensure_combined_pdf env db fs pid).2.1
        (ensure_combined_pdf env db fs pid).2.2 pid =
      ({ pdf := some c, generated := false, skipped := false, skip_reason := none,
         error := none },
       (ensure_combined_pdf env db fs pid).2.1,
       (ensure_combined_pdf env db fs pid).2.2) := by
  have hpost := ensure_pdf_spec env db fs pid c h
  conv_lhs => rw [ensure_combined_pdf]
  rw [hpost.1]
  simp [hpost.2]

/-- Witness for C6: a request whose first ensure call generates the combined
PDF; the repeated call is a pure cache hit on the unchanged state. -/
theorem C6_ensure_idempotent_witness :
    ensure_combined_pdf env_ok (ensure_combined_pdf env_ok db_merge_fail fs_um 1).2.1
        (ensure_combined_pdf env_ok db_merge_fail fs_um 1).2.2 1 =
      ({ pdf := some ⟨1, .pdf_combinado, .valid, "uploads/generated_pdfs/Ana - ldi.pdf"⟩,
         generated := false, skipped := false, skip_reason := none, error := none },
       (ensure_combined_pdf env_ok db_merge_fail fs_um 1).2.1,
       (ensure_combined_pdf env_ok db_merge_fail fs_um 1).2.2) :=
  C6_ensure_idempotent env_ok db_merge_fail fs_um 1
    ⟨1, .pdf_combinado, .valid, "uploads/generated_pdfs/Ana - ldi.pdf"⟩ (by decide)

/-! ### Batch lemmas (ensure_combined_pdfs_batch) -/

/-- The three result shapes ensure_combined_pdf can produce: cache hit,
freshly generated, or skipped. -/
def ResultShape (r : PDFEnsureResult) : Prop :=
  (r.generated = false ∧ r.skipped = false ∧ r.pdf.isSome = true) ∨
  (r.generated = true ∧ r.skipped = false ∧ r.pdf.isSome = true) ∨
  (r.generated = false ∧ r.skipped = true ∧ r.pdf.isSome = false)

theorem ensure_generate_shape (env : Env) (db : DB) (fs : FS) (pid : Nat) :
    ResultShape (ensure_generate env db fs pid).1 := by
  unfold ensure_generate
  split
  · split
    · exact Or.inr (Or.inl ⟨rfl, rfl, rfl⟩)
    · exact Or.inr (Or.inr ⟨rfl, rfl, rfl⟩)
  · exact Or.inr (Or.inr ⟨rfl, rfl, rfl⟩)

theorem ensure_shape (env : Env) (db : DB) (fs : FS) (pid : Nat) :
    ResultShape (ensure_combined_pdf env db fs pid).1 := by
  unfold ensure_combined_pdf
  split
  · split
    · exact Or.inl ⟨rfl, rfl, rfl⟩
    · exact ensure_generate_shape env db fs pid
  · exact ensure_generate_shape env db fs pid

theorem mem_dictInsert {m : List (Nat × PDFEnsureResult)} {k : Nat}
    {v : PDFEnsureResult} :
    ∀ e ∈ dictInsert m k v, e = (k, v) ∨ e ∈ m := by
  intro e he
  unfold dictInsert at he
  split at he
  · rcases List.mem_map.mp he with ⟨a, ha, hae⟩
    by_cases hk : a.1 = k
    · simp only [hk, if_true] at hae
      exact Or.inl hae.symm
    · simp only [hk, if_false] at hae
      exact Or.inr (hae ▸ ha)
  · rcases List.mem_append.mp he with h1 | h1
    · exact Or.inr h1
    · exact Or.inl (List.mem_singleton.mp h1)

theorem exists_mem_of_lookup_isSome {m : List (Nat × PDFEnsureResult)} {k : Nat}
    (h : (m.lookup k).isSome = true) : ∃ a ∈ m, a.1 = k := by
  induction m with
  | nil => simp [List.lookup] at h
  | cons e es ih =>
    obtain ⟨k1, v1⟩ := e
    by_cases hk : k = k1
    · exact ⟨(k1, v1), List.mem_cons_self _ _, hk.symm⟩
    · have hbeq : (k == k1) = false := by simp [hk]
      rw [List.lookup, hbeq] at h
      rcases ih h with ⟨a, ha, hak⟩
      exact ⟨a, List.mem_cons_of_mem _ ha, hak⟩

theorem self_mem_dictInsert (m : List (Nat × PDFEnsureResult)) (k : Nat)
    (v : PDFEnsureResult) : (k, v) ∈ dictInsert m k v := by
  unfold dictInsert
  split
  · next hsome =>
    rcases exists_mem_of_lookup_isSome hsome with ⟨a, ha, hak⟩
    refine List.mem_map.mpr ⟨a, ha, ?_⟩
    simp [hak]
  · exact List.mem_append.mpr (Or.inr (List.mem_singleton.mpr rfl))

theorem key_persists_dictInsert {m : List (Nat × PDFEnsureResult)} {k2 : Nat}
    (k : Nat) (v : PDFEnsureResult) (h : ∃ w, (k2, w) ∈ m) :
    ∃ w, (k2, w) ∈ dictInsert m k v := by
  by_cases hk : k2 = k
  · exact ⟨v, hk ▸ self_mem_dictInsert m k v⟩
  · rcases h with ⟨w, hw⟩
    unfold dictInsert
    split
    · refine ⟨w, List.mem_map.mpr ⟨(k2, w), hw, ?_⟩⟩
      simp [hk]
    · exact ⟨w, List.mem_append.mpr (Or.inl hw)⟩

theorem lookup_isSome_of_exists_mem {m : List (Nat × PDFEnsureResult)} {k : Nat}
    (h : ∃ w, (k, w) ∈ m) : (m.lookup k).isSome = true := by
  rcases h with ⟨w, hw⟩
  induction m with
  | nil => simp at hw
  | cons e es ih =>
    obtain ⟨k1, v1⟩ := e
    rcases List.mem_cons.mp hw with h1 | h1
    · rw [Prod.mk.injEq] at h1
      rw [h1.1]
      simp [List.lookup]
    · by_cases hk : k = k1
      · subst hk
        simp [List.lookup]
      · have hbeq : (k == k1) = false := by simp [hk]
        rw [List.lookup, hbeq]
        exact ih h1

/-- Main induction over the batch loop: keys stay inside the processed set,
every stored value has one of the three result shapes, and every id that had
an entry or is still to be processed ends with an entry. -/
theorem batchGo_spec (env : Env) (S : List Nat) :
    ∀ (pids : List Nat) (acc : List (Nat × PDFEnsureResult) × DB × FS),
    (∀ p ∈ pids, p ∈ S) →
    (∀ e ∈ acc.1, e.1 ∈ S) →
    (∀ e ∈ acc.1, ResultShape e.2) →
    (∀ e ∈ (batchGo env pids acc).1, e.1 ∈ S) ∧
    (∀ e ∈ (batchGo env pids acc).1, ResultShape e.2) ∧
    (∀ k, ((∃ w, (k, w) ∈ acc.1) ∨ k ∈ pids) →
      ∃ w, (k, w) ∈ (batchGo env pids acc).1) := by
  intro pids
  induction pids with
  | nil =>
    intro acc hS hkeys hshape
    refine ⟨hkeys, hshape, ?_⟩
    intro k hk
    rcases hk with h | h
    · exact h
    · simp at h
  | cons p rest ih =>
    intro acc hS hkeys hshape
    obtain ⟨results, dbA, fsA⟩ := acc
    simp only [batchGo]
    have hpS : p ∈ S := hS p (List.mem_cons_self _ _)
    have hrestS : ∀ q ∈ rest, q ∈ S := fun q hq => hS q (List.mem_cons_of_mem _ hq)
    set r := ensure_combined_pdf env dbA fsA p with hr
    have hkeys2 : ∀ e ∈ dictInsert results p r.1, e.1 ∈ S := by
      intro e he
      rcases mem_dictInsert e he with h1 | h1
      · rw [h1]; exact hpS
      · exact hkeys e h1
    have hshape2 : ∀ e ∈ dictInsert results p r.1, ResultShape e.2 := by
      intro e he
      rcases mem_dictInsert e he with h1 | h1
      · rw [h1]; exact ensure_shape env dbA fsA p
      · exact hshape e h1
    have ihr := ih (dictInsert results p r.1, r.2.1, r.2.2) hrestS hkeys2 hshape2
    refine ⟨ihr.1, ihr.2.1, ?_⟩
    intro k hk
    apply ihr.2.2
    rcases hk with h | h
    · exact Or.inl (key_persists_dictInsert p r.1 h)
    · rcases List.mem_cons.mp h with h1 | h1
      · subst h1
        exact Or.inl ⟨r.1, self_mem_dictInsert results k r.1⟩
      · exact Or.inr h1

/-- Sum of the three aggregated counts over a list of shaped results. -/
theorem counts_partition :
    ∀ rs : List (Nat × PDFEnsureResult), (∀ e ∈ rs, ResultShape e.2) →
    (batch_counts rs).existing + (batch_counts rs).generated +
      (batch_counts rs).skipped = rs.length := by
  intro rs
  induction rs with
  | nil => intro _; rfl
  | cons e es ih =>
    intro hshape
    have he := hshape e (List.mem_cons_self _ _)
    have hes := ih (fun a ha => hshape a (List.mem_cons_of_mem _ ha))
    simp only [batch_counts, PDFEnsureResult.existsPdf] at hes ⊢
    rcases he with ⟨h1, h2, h3⟩ | ⟨h1, h2, h3⟩ | ⟨h1, h2, h3⟩ <;>
      simp [List.filter, h1, h2, h3, List.length_cons] <;>
      omega

/-- C9: the batch loop gives every input id a per-item outcome (a failure on
one id — a skip, a merge failure — never halts processing of the rest, since
every id in the list ends with an entry in the returned map), entries exist
only for input ids, and the aggregated cache-hit, generated and skipped
counts together account for every entry of the map. -/
theorem C9_batch_totality (env : Env) (db : DB) (fs : FS) (process_ids : List Nat) :
    (∀ pid ∈ process_ids,
      (((ensure_combined_pdfs_batch env db fs process_ids).1).lookup pid).isSome = true) ∧
    (∀ e ∈ (ensure_combined_pdfs_batch env db fs process_ids).1, e.1 ∈ process_ids) ∧
    (batch_counts (ensure_combined_pdfs_batch env db fs process_ids).1).existing +
      (batch_counts (ensure_combined_pdfs_batch env db fs process_ids).1).generated +
      (batch_counts (ensure_combined_pdfs_batch env db fs process_ids).1).skipped =
      (ensure_combined_pdfs_batch env db fs process_ids).1.length := by
  have hspec := batchGo_spec env process_ids process_ids ([], db, fs)
    (fun p hp => hp) (by simp) (by simp)
  refine ⟨?_, hspec.1, counts_partition _ hspec.2.1⟩
  intro pid hpid
  exact lookup_isSome_of_exists_mem (hspec.2.2 pid (Or.inr hpid))

/-- Witness for C9: in a two-id batch whose first id generates and whose
second id has no process row, both ids receive an outcome. -/
theorem C9_batch_totality_witness :
    (((ensure_combined_pdfs_batch env_ok db_merge_fail fs_um [1, 2]).1).lookup 1).isSome
        = true ∧
    (((ensure_combined_pdfs_batch env_ok db_merge_fail fs_um [1, 2]).1).lookup 2).isSome
        = true :=
  ⟨(C9_batch_totality env_ok db_merge_fail fs_um [1, 2]).1 1 (by decide),
   (C9_batch_totality env_ok db_merge_fail fs_um [1, 2]).1 2 (by decide)⟩

/-! ## Part 5: upload storage (app/services/file_service.py, save_file)

The upload is validated, then normalized by type: a PDF is sanitized and
re-sniffed, an image is converted to PDF through the image_processing
pipeline (whose Pillow- and img2pdf-backed internals are modelled as an
environment function that either returns PDF bytes or raises an
ImageValidationError or ImageConversionError message), and the result is
written under a per-process directory with a {type}_{index}{ext} name. -/

/-- MIME_TO_EXT from app/services/file_service.py. -/
def MIME_TO_EXT : List (String × String) :=
  [("application/pdf", ".pdf"), ("image/jpeg", ".jpg"), ("image/png", ".png")]

/-- get_file_extension: extension for a MIME type, with the .bin fallback. -/
def get_file_extension (mime : String) : String := (MIME_TO_EXT.lookup mime).getD ".bin"

/-- Environment of save_file: the MIME sniffer, the pikepdf model used by
sanitize_pdf, the image-to-PDF conversion pipeline, the configured limits and
paths, and write success. -/
structure SaveEnv where
  detect : List Nat → Option String
  pdfOpen : List Nat → PdfOpenResult
  pdfSaveBytes : PdfDoc → List Nat
  pikepdfAvailable : Bool
  convert_image_to_pdf : List Nat → Except String (List Nat)
  max_file_size : Nat
  upload_dir : String
  writeOk : String → Bool

/-- get_process_upload_dir: uploads/{sanitized patient}/{protocol}. -/
def get_process_upload_dir (env : SaveEnv) (patient_name protocol_number : String) :
    String :=
  env.upload_dir ++ "/" ++ sanitize_filename patient_name ++ "/" ++ protocol_number

/-- get_document_type_index from app/services/document_service.py: one plus
the number of documents of the same type already stored for the process. -/
def get_document_type_index (db : DB) (process_id : Nat) (document_type : DocumentType) :
    Nat :=
  (db.documents.filter (fun d =>
    decide (d.process_id = process_id ∧ d.document_type = document_type))).length + 1

/-- The type-dependent normalization step of save_file: a PDF is sanitized
and its sanitized bytes re-sniffed (rejected unless still application/pdf);
a JPEG or PNG is converted to PDF; anything else is rejected. Returns the
bytes to store and their MIME type. -/
def save_file_normalize (env : SaveEnv) (content : List Nat) (mime : String) :
    Except String (List Nat × String) :=
  if mime = "application/pdf" then
    match sanitize_pdf env.pikepdfAvailable env.pdfOpen env.pdfSaveBytes content with
    | .error msg => .error msg
    | .ok content2 =>
      if env.detect content2 = some "application/pdf" then .ok (content2, "application/pdf")
      else .error "PDF inválido após sanitização"
  else if mime = "image/jpeg" ∨ mime = "image/png" then
    match env.convert_image_to_pdf content with
    | .error e => .error e
    | .ok content2 => .ok (content2, "application/pdf")
  else .error ("Tipo MIME não suportado: " ++ mime)

/-- save_file: validate the buffer, normalize it by type, and write it as
{document_type}_{index}{extension} under the process upload directory,
returning (stored_filename, file_path, file_size, mime_type) and the new
filesystem. A failed write raises an OSError (retried by the decorator;
timing-only, not modelled). -/
def save_file (env : SaveEnv) (db : DB) (fs : FS) (content : List Nat)
    (process_id : Nat) (document_type : DocumentType)
    (patient_name protocol_number : String) :
    Except String ((String × String × Nat × String) × FS) :=
  let file_size := content.length
  let validation := validate_file_content env.detect env.max_file_size content file_size
  if !validation.is_valid then .error (validation.error.getD "") else
  match save_file_normalize env content (validation.mime_type.getD "") with
  | .error e => .error e
  | .ok (content2, mime_type) =>
    let doc_index := get_document_type_index db process_id document_type
    let stored_filename :=
      document_type.value ++ "_" ++ toString doc_index ++ get_file_extension mime_type
    let process_dir := get_process_upload_dir env patient_name protocol_number
    let file_path := process_dir ++ "/" ++ stored_filename
    if env.writeOk file_path then
      .ok ((stored_filename, file_path, content2.length, mime_type), (file_path, content2) :: fs)
    else .error "OSError"

theorem save_file_normalize_mime (env : SaveEnv) (content : List Nat) (mime : String)
    (content2 : List Nat) (mime2 : String)
    (h : save_file_normalize env content mime = .ok (content2, mime2)) :
    mime2 = "application/pdf" := by
  unfold save_file_normalize at h
  split at h
  · split at h
    · exact absurd h (by simp)
    · split at h
      · simp only [Except.ok.injEq, Prod.mk.injEq] at h
        exact h.2.symm
      · exact absurd h (by simp)
  · split at h
    · split at h
      · exact absurd h (by simp)
      · simp only [Except.ok.injEq, Prod.mk.injEq] at h
        exact h.2.symm
    · exact absurd h (by simp)

/-- C8: every upload accepted by save_file — whatever the sniffed type
(application/pdf, image/jpeg or image/png) — is stored with mime_type
application/pdf and a stored filename ending in the .pdf extension: accepted
images are converted to PDF, never stored in their native form. -/
theorem C8_save_file_always_pdf (env : SaveEnv) (db : DB) (fs : FS)
    (content : List Nat) (process_id : Nat) (document_type : DocumentType)
    (patient_name protocol_number : String)
    (fn path : String) (sz : Nat) (mt : String) (fs2 : FS)
    (h : save_file env db fs content process_id document_type patient_name
      protocol_number = .ok ((fn, path, sz, mt), fs2)) :
    mt = "application/pdf" ∧ ∃ s, fn = s ++ ".pdf" := by
  unfold save_file at h
  simp only [] at h
  split at h
  · exact absurd h (by simp)
  · cases hn : save_file_normalize env content
        ((validate_file_content env.detect env.max_file_size content
          content.length).mime_type.getD "") with
    | error e => rw [hn] at h; exact absurd h (by simp)
    | ok pr =>
      obtain ⟨content2, mime2⟩ := pr
      rw [hn] at h
      have hmime := save_file_normalize_mime env content _ content2 mime2 hn
      subst hmime
      simp only at h
      split at h
      · simp only [Except.ok.injEq, Prod.mk.injEq] at h
        obtain ⟨⟨hfn, _, _, hmt⟩, _⟩ := h
        refine ⟨hmt.symm, ?_⟩
        refine ⟨document_type.value ++ "_" ++
          toString (get_document_type_index db process_id document_type), ?_⟩
        rw [← hfn]
        rfl
      · exact absurd h (by simp)

/-- Witness for C8: a sniffed PNG upload is converted and stored as a PDF. -/
theorem C8_save_file_always_pdf_witness :
    "application/pdf" = "application/pdf" ∧ ∃ s, "exame_1.pdf" = s ++ ".pdf" :=
  C8_save_file_always_pdf
    ⟨fun _ => some "image/png", fun _ => .ok ⟨false, false, false, false, false, []⟩,
      fun _ => [], true, fun _ => .ok [9, 9], 10485760, "uploads", fun _ => true⟩
    ⟨[], []⟩ [] [5, 5] 1 DocumentType.exame "Ana" "P1" "exame_1.pdf"
    "uploads/Ana/P1/exame_1.pdf" 2 "application/pdf"
    [("uploads/Ana/P1/exame_1.pdf", [9, 9])] (by rfl)

end PraiaGrande
